import Mathlib

/-!
# FlashCard cache-aside orchestration layer: verification development

Shallow embedding of the server-side orchestration layer of the FlashCard
repository (`functions/src/index.ts`): cache-key derivation, the two HTTP
request handlers (`getFlashcardDeck`, `getSpeechAudio`), and the deck
fan-out coordination (`_generateFlashcardsFromAPI`, `_generateImageFromAPI`).

External effects (the Firestore store, the Gemini provider, the clock) are
modelled as explicit oracle fields of a per-request world; each handler is a
pure function from a world and a request to a response, a call trace, and
the post-request store.
-/

namespace FlashCard

/-! ## Key derivation

`getFlashcardDeck` (index.ts line 115):
  `` `deck_${sourceLang}_${targetLang}_${difficulty}`.replace(/\s+/g, "_") ``
`getSpeechAudio` (index.ts line 155):
  `` `audio_${text.replace(/[^a-zA-Z0-9]/g, "_").substring(0, 100)}` ``

Strings are treated as their character sequences (`String.data`); JS
`substring` counts UTF-16 code units while Lean counts code points, which
agree outside the astral planes.
-/

/-- The character class of the JavaScript regex `\s` (ECMAScript WhiteSpace
and LineTerminator sets): used by the deck-key `replace(/\s+/g, "_")`. -/
def jsWhitespace (c : Char) : Bool :=
  c == ' ' || c == '\t' || c == '\n' || c.val == 11 || c.val == 12 || c == '\r' ||
  c.val == 0xA0 || c.val == 0x1680 || (0x2000 <= c.val && c.val <= 0x200A) ||
  c.val == 0x2028 || c.val == 0x2029 || c.val == 0x202F || c.val == 0x205F ||
  c.val == 0x3000 || c.val == 0xFEFF

/-- One left-to-right pass of `replace(/\s+/g, "_")`: the flag records
whether the scanner is inside a whitespace run (whose first character
already emitted the single `'_'`). -/
def collapseWsAux : Bool → List Char → List Char
  | _, [] => []
  | inRun, c :: cs =>
    if jsWhitespace c then
      if inRun then collapseWsAux true cs else '_' :: collapseWsAux true cs
    else
      c :: collapseWsAux false cs

/-- `s.replace(/\s+/g, "_")` on a whole string. -/
def replaceWsRuns (s : String) : String :=
  ⟨collapseWsAux false s.data⟩

/-- Deck cache key, index.ts line 115. -/
def deriveDeckKey (sourceLang targetLang difficulty : String) : String :=
  replaceWsRuns ("deck_" ++ sourceLang ++ "_" ++ targetLang ++ "_" ++ difficulty)

/-- `text.replace(/[^a-zA-Z0-9]/g, "_")`: every character outside
`[A-Za-z0-9]` becomes an underscore. -/
def replaceNonAlnum (s : String) : String :=
  ⟨s.data.map fun c => if c.isAlphanum then c else '_'⟩

/-- Audio cache key, index.ts line 155: the transformed text is truncated to
its first 100 characters before the prefix is attached. -/
def deriveAudioKey (text : String) : String :=
  "audio_" ++ ⟨(replaceNonAlnum text).data.take 100⟩

/-! ### Spec-side restatement of the deck key (for the refinement claim C6)

The spec reads: "concatenate a fixed prefix (`deck`), the two language
names, and the difficulty, separated by underscores; collapse all whitespace
runs into single underscores".  `specCollapseWs` maps each maximal
whitespace run to one underscore directly: a leading whitespace character
emits `'_'` and the rest of its maximal run is dropped wholesale. -/

/-- Spec's words: each maximal whitespace run becomes a single underscore. -/
def specCollapseWs : List Char → List Char
  | [] => []
  | c :: cs =>
    if jsWhitespace c then '_' :: specCollapseWs (cs.dropWhile fun x => jsWhitespace x)
    else c :: specCollapseWs cs
  termination_by l => l.length
  decreasing_by
    all_goals simp_wf
    all_goals
      refine Nat.lt_succ_of_le ?_
      induction cs with
      | nil => exact Nat.le_refl _
      | cons a l ih =>
        rw [List.dropWhile_cons]
        by_cases h : jsWhitespace a
        · simp only [h, if_true]
          exact Nat.le_succ_of_le ih
        · simp [h]


/-- Spec-side deck key: prefix and components separated by underscores, then
whitespace runs collapsed. -/
def specDeriveDeckKey (sourceLang targetLang difficulty : String) : String :=
  ⟨specCollapseWs ("deck_" ++ sourceLang ++ "_" ++ targetLang ++ "_" ++ difficulty).data⟩

/-- Spec-side audio transform: each character outside `[A-Za-z0-9]` replaced
by underscore, the result truncated to its first 100 characters. -/
def specAudioTransform (text : String) : List Char :=
  (text.data.map fun c => if c.isAlphanum then c else '_').take 100

/-! ## Data model (index.ts lines 15-24, frontend `types.ts`)

`GrammaticalType` is only a type alias over strings in the source and the
provider's string is cast without validation (line 94: `card.type.toLowerCase()
as GrammaticalType`), so card fields stay plain strings here. -/

/-- `s.toLowerCase()`, character by character (`Char.toLower` is the
ASCII-range lowering; provider grammatical types are ASCII). -/
def jsToLower (s : String) : String :=
  ⟨s.data.map Char.toLower⟩

/-- One card description as returned by the text-generation call
(`Omit<FlashcardData, "image">`, index.ts line 86). -/
structure CardDesc where
  word : String
  translation : String
  type : String
  sentence : String
  deriving DecidableEq, Repr

/-- `FlashcardData` (index.ts lines 18-24). -/
structure FlashcardData where
  word : String
  translation : String
  type : String
  sentence : String
  image : String
  deriving DecidableEq, Repr

/-! ## Image fan-out (index.ts lines 30-53 and 86-97)

Each concurrent provider image call is represented by its outcome: either a
response carrying a list of parts (each with optional `inlineData`), or a
thrown error. -/

/-- Outcome of one provider image call. -/
inductive ProviderImageResult where
  | response (parts : List (Option String))
  | thrown
  deriving DecidableEq, Repr

/-- `_generateImageFromAPI` (index.ts lines 30-53): scans the response parts
for the first `inlineData`, wraps it as a data URL, and returns `"no-image"`
when no part carries data or when the provider call throws — the whole body
sits inside `try/catch`, so the promise always resolves (`Except.ok`). -/
def _generateImageFromAPI (r : ProviderImageResult) : Except Unit String :=
  match r with
  | .response parts =>
    match parts.findSome? id with
    | some data => .ok ("data:image/png;base64," ++ data)
    | none => .ok "no-image"
  | .thrown => .ok "no-image"

/-- The image payload a provider outcome carries, if any: the first part
with `inlineData`. -/
def imagePayload? (r : ProviderImageResult) : Option String :=
  match r with
  | .response parts => parts.findSome? id
  | .thrown => none

/-- State of one settled promise, as reported by `Promise.allSettled`. -/
inductive Settled (α : Type) where
  | fulfilled (value : α)
  | rejected
  deriving DecidableEq, Repr

/-- How `Promise.allSettled` reports one promise. -/
def settle {α : Type} : Except Unit α → Settled α
  | .ok v => .fulfilled v
  | .error _ => .rejected

/-- The settled results of the N concurrent image calls (index.ts lines
87-88): `oracle i` is the provider outcome of the call for the i-th card. -/
def settleImages (cards : List CardDesc) (oracle : Nat → ProviderImageResult) :
    List (Settled String) :=
  (List.range cards.length).map fun i => settle (_generateImageFromAPI (oracle i))

/-- One record of the assembly map (index.ts lines 90-97): spread the card,
lower-case its grammatical type, and take the fulfilled image value or the
`"no-image"` fallback. -/
def assembleCard (card : CardDesc) (imageResult : Settled String) : FlashcardData :=
  { word := card.word
    translation := card.translation
    type := jsToLower card.type
    sentence := card.sentence
    image :=
      match imageResult with
      | .fulfilled v => v
      | .rejected => "no-image" }

/-- The assembly map over all cards, positional (`imageResults[index]`). -/
def assembleDeck (cards : List CardDesc) (results : List (Settled String)) :
    List FlashcardData :=
  cards.mapIdx fun i card => assembleCard card (results.getD i .rejected)

/-- The deck assembled from the text cards and the image-call outcomes. -/
def assembledDeck (cards : List CardDesc) (oracle : Nat → ProviderImageResult) :
    List FlashcardData :=
  assembleDeck cards (settleImages cards oracle)

/-- `_generateFlashcardsFromAPI` (index.ts lines 56-98): the text-generation
call either throws (propagating to the caller) or yields the ordered card
descriptions, which are completed by the concurrent image fan-out. -/
def _generateFlashcardsFromAPI (textResult : Except Unit (List CardDesc))
    (oracle : Nat → ProviderImageResult) : Except Unit (List FlashcardData) :=
  match textResult with
  | .error e => .error e
  | .ok cards => .ok (assembledDeck cards oracle)

/-! ## HTTP handlers (index.ts lines 102-193)

A handler is a pure function of the request and a world of oracles: the
current Firestore collection contents, whether the store read (`get`) and
write (`set`) throw, the provider outcomes, and the clock. It returns the
HTTP response, a trace of the provider and store calls made, and the
post-request collection contents. -/

/-- An HTTP response: `response.status(s).json(body)` or
`response.status(s).send(msg)`. -/
inductive Response (α : Type) where
  | success (status : Nat) (body : α)
  | failure (status : Nat) (msg : String)
  deriving DecidableEq, Repr

/-- The HTTP status of a response. -/
def Response.statusOf {α : Type} : Response α → Nat
  | .success s _ => s
  | .failure s _ => s

/-- JavaScript falsiness of a JSON string body field: absent (`undefined`)
or the empty string. -/
def falsy : Option String → Bool
  | none => true
  | some s => s == ""

/-- Body and method of a deck request (index.ts line 109 destructuring). -/
structure DeckRequest where
  method : String
  sourceLang : Option String
  targetLang : Option String
  difficulty : Option String
  deriving DecidableEq, Repr

/-- A `flashcardDecks` document: `{ cards, createdAt }` (index.ts 128). -/
structure DeckEntry where
  cards : List FlashcardData
  createdAt : Nat
  deriving DecidableEq, Repr

/-- World of oracles for one deck request. -/
structure DeckWorld where
  store : String → Option DeckEntry
  readFails : Bool
  writeFails : Bool
  textGen : Except Unit (List CardDesc)
  imageGen : Nat → ProviderImageResult
  now : Nat

/-- Calls made while serving one deck request: text-generation calls with
their arguments, image calls with the prompted word, store reads and
successful store writes with their keys. -/
structure DeckTrace where
  textCalls : List (String × String × String)
  imageCalls : List String
  storeReads : List String
  storeWrites : List String
  deriving DecidableEq, Repr

/-- The trace of a request that made no provider or store call. -/
def emptyDeckTrace : DeckTrace := ⟨[], [], [], []⟩

/-- Result of one deck request. -/
structure DeckResult where
  response : Response (List FlashcardData)
  trace : DeckTrace
  store : String → Option DeckEntry

/-- `getFlashcardDeck` (index.ts lines 102-137). Branches in source order:
405 on non-POST (104-107); 400 on a falsy field (110-113); key derivation
(115); `docRef.get()` (117), whose throw reaches the catch (132-135) as a
500; cache hit responds with the stored `cards` (119-123); miss calls
`_generateFlashcardsFromAPI` (126), whose throw reaches the catch as a 500;
`docRef.set` (128), whose throw reaches the catch as a 500; 200 with the
fresh cards (131). -/
def getFlashcardDeck (w : DeckWorld) (req : DeckRequest) : DeckResult :=
  if req.method ≠ "POST" then
    ⟨.failure 405 "Method Not Allowed", emptyDeckTrace, w.store⟩
  else if falsy req.sourceLang || falsy req.targetLang || falsy req.difficulty then
    ⟨.failure 400 "Missing required parameters.", emptyDeckTrace, w.store⟩
  else
    let sourceLang := req.sourceLang.getD ""
    let targetLang := req.targetLang.getD ""
    let difficulty := req.difficulty.getD ""
    let cacheKey := deriveDeckKey sourceLang targetLang difficulty
    if w.readFails then
      ⟨.failure 500 "Internal Server Error while generating flashcards.",
        { emptyDeckTrace with storeReads := [cacheKey] }, w.store⟩
    else
      match w.store cacheKey with
      | some entry =>
        ⟨.success 200 entry.cards,
          { emptyDeckTrace with storeReads := [cacheKey] }, w.store⟩
      | none =>
        match w.textGen with
        | .error _ =>
          ⟨.failure 500 "Internal Server Error while generating flashcards.",
            { textCalls := [(sourceLang, targetLang, difficulty)], imageCalls := [],
              storeReads := [cacheKey], storeWrites := [] }, w.store⟩
        | .ok cards =>
          let newFlashcards := assembledDeck cards w.imageGen
          let tr : DeckTrace :=
            { textCalls := [(sourceLang, targetLang, difficulty)]
              imageCalls := cards.map (·.word)
              storeReads := [cacheKey]
              storeWrites := [] }
          if w.writeFails then
            ⟨.failure 500 "Internal Server Error while generating flashcards.",
              tr, w.store⟩
          else
            ⟨.success 200 newFlashcards, { tr with storeWrites := [cacheKey] },
              fun k => if k = cacheKey then some ⟨newFlashcards, w.now⟩ else w.store k⟩

/-- Body and method of an audio request (index.ts line 149). -/
structure AudioRequest where
  method : String
  text : Option String
  deriving DecidableEq, Repr

/-- A `speechAudio` document: `{ audioContent, createdAt }` (index.ts 185). -/
structure AudioEntry where
  audioContent : String
  createdAt : Nat
  deriving DecidableEq, Repr

/-- World of oracles for one audio request: `ttsGen` is the TTS provider
call outcome — thrown, or a response whose first-part `inlineData.data` is
present or absent. -/
structure AudioWorld where
  store : String → Option AudioEntry
  readFails : Bool
  writeFails : Bool
  ttsGen : Except Unit (Option String)
  now : Nat

/-- Calls made while serving one audio request. -/
structure AudioTrace where
  ttsCalls : List String
  storeReads : List String
  storeWrites : List String
  deriving DecidableEq, Repr

/-- The trace of an audio request that made no provider or store call. -/
def emptyAudioTrace : AudioTrace := ⟨[], [], []⟩

/-- Result of one audio request. -/
structure AudioResult where
  response : Response String
  trace : AudioTrace
  store : String → Option AudioEntry

/-- `getSpeechAudio` (index.ts lines 141-193). Branches in source order:
405 on non-POST (143-146); 400 on falsy `text` (150-153); key derivation
(155); `docRef.get()` (157), throw → catch → 500; hit responds with stored
`audioContent` (159-163); miss calls the TTS provider (167-178), throw →
catch → 500; missing `inlineData.data` throws (181-183) → catch → 500;
`docRef.set` (185), throw → catch → 500; 200 with the audio (188). -/
def getSpeechAudio (w : AudioWorld) (req : AudioRequest) : AudioResult :=
  if req.method ≠ "POST" then
    ⟨.failure 405 "Method Not Allowed", emptyAudioTrace, w.store⟩
  else if falsy req.text then
    ⟨.failure 400 "Missing 'text' parameter.", emptyAudioTrace, w.store⟩
  else
    let text := req.text.getD ""
    let cacheKey := deriveAudioKey text
    if w.readFails then
      ⟨.failure 500 "Internal Server Error while generating speech.",
        { emptyAudioTrace with storeReads := [cacheKey] }, w.store⟩
    else
      match w.store cacheKey with
      | some entry =>
        ⟨.success 200 entry.audioContent,
          { emptyAudioTrace with storeReads := [cacheKey] }, w.store⟩
      | none =>
        match w.ttsGen with
        | .error _ =>
          ⟨.failure 500 "Internal Server Error while generating speech.",
            { ttsCalls := [text], storeReads := [cacheKey], storeWrites := [] },
            w.store⟩
        | .ok none =>
          ⟨.failure 500 "Internal Server Error while generating speech.",
            { ttsCalls := [text], storeReads := [cacheKey], storeWrites := [] },
            w.store⟩
        | .ok (some base64Audio) =>
          if w.writeFails then
            ⟨.failure 500 "Internal Server Error while generating speech.",
              { ttsCalls := [text], storeReads := [cacheKey], storeWrites := [] },
              w.store⟩
          else
            ⟨.success 200 base64Audio,
              { ttsCalls := [text], storeReads := [cacheKey],
                storeWrites := [cacheKey] },
              fun k => if k = cacheKey then some ⟨base64Audio, w.now⟩ else w.store k⟩


/-! ## Theorems -/

theorem dropWhileLenLe (p : Char → Bool) (l : List Char) :
    (l.dropWhile p).length ≤ l.length := by
  induction l with
  | nil => exact Nat.le_refl _
  | cons a l ih =>
    rw [List.dropWhile_cons]
    by_cases h : p a
    · simp only [h, if_true]
      exact Nat.le_succ_of_le ih
    · simp [h]

set_option maxHeartbeats 4000000 in
theorem specCollapseWsNil : specCollapseWs [] = [] := by
  unfold specCollapseWs
  rfl

set_option maxHeartbeats 4000000 in
theorem specCollapseWsCons (c : Char) (cs : List Char) :
    specCollapseWs (c :: cs) =
      if jsWhitespace c then '_' :: specCollapseWs (cs.dropWhile fun x => jsWhitespace x)
      else c :: specCollapseWs cs := by
  rw [specCollapseWs]

theorem collapseWsAux_true_eq (l : List Char) :
    collapseWsAux true l = collapseWsAux false (l.dropWhile fun x => jsWhitespace x) := by
  induction l with
  | nil => rfl
  | cons c cs ih =>
    by_cases h : jsWhitespace c
    · simp [collapseWsAux, h, List.dropWhile, ih]
    · simp [collapseWsAux, h, List.dropWhile]

theorem collapseWsAux_false_eq_spec (l : List Char) :
    collapseWsAux false l = specCollapseWs l := by
  have H : ∀ n (l : List Char), l.length ≤ n → collapseWsAux false l = specCollapseWs l := by
    intro n
    induction n with
    | zero =>
      intro l hl
      have hnil : l = [] := List.eq_nil_of_length_eq_zero (Nat.le_zero.mp hl)
      subst hnil
      rw [specCollapseWsNil]
      rfl
    | succ n ih =>
      intro l hl
      match l with
      | [] =>
        rw [specCollapseWsNil]
        rfl
      | c :: cs =>
        by_cases h : jsWhitespace c
        · have h1 : collapseWsAux false (c :: cs) = '_' :: collapseWsAux true cs := by
            simp [collapseWsAux, h]
          have hcs : (cs.dropWhile fun x => jsWhitespace x).length ≤ n :=
            le_trans (dropWhileLenLe _ _)
              (Nat.le_of_succ_le_succ (by simpa using hl))
          rw [h1, collapseWsAux_true_eq, ih _ hcs, specCollapseWsCons, if_pos h]
        · have h1 : collapseWsAux false (c :: cs) = c :: collapseWsAux false cs := by
            simp [collapseWsAux, h]
          have hcs : cs.length ≤ n := Nat.le_of_succ_le_succ (by simpa using hl)
          rw [h1, ih _ hcs, specCollapseWsCons, if_neg h]
  exact H l.length l (Nat.le_refl _)

/-- C6: the derived deck key is the underscore-separated concatenation of
the prefix `deck`, the two language names and the difficulty, with every
maximal whitespace run collapsed to a single underscore; being a plain Lean
function of its three string arguments, the derivation is pure,
deterministic and total. -/
theorem deriveDeckKey_correct (sourceLang targetLang difficulty : String) :
    deriveDeckKey sourceLang targetLang difficulty =
      specDeriveDeckKey sourceLang targetLang difficulty := by
  unfold deriveDeckKey specDeriveDeckKey replaceWsRuns
  rw [collapseWsAux_false_eq_spec]

/-- C7: the audio key is `audio_` followed by the input text with every
character outside `[A-Za-z0-9]` replaced by underscore and truncated to the
first 100 transformed characters; the transform is non-injective — the
distinct texts `"a b"` and `"a.b"` normalize identically and share a key. -/
theorem deriveAudioKey_collision :
    (∀ text : String, deriveAudioKey text = "audio_" ++ ⟨specAudioTransform text⟩) ∧
      ("a b" ≠ "a.b" ∧ deriveAudioKey "a b" = deriveAudioKey "a.b") := by
  refine ⟨fun text => rfl, by decide, ?_⟩
  rfl

/-- C8: a POST deck request with a missing (falsy) `sourceLang`,
`targetLang` or `difficulty` is answered 400 with no provider call and no
store interaction, and likewise a POST audio request with missing `text`. -/
theorem validation_short_circuit
    (wd : DeckWorld) (reqd : DeckRequest) (wa : AudioWorld) (reqa : AudioRequest)
    (hmd : reqd.method = "POST")
    (hfd : (falsy reqd.sourceLang || falsy reqd.targetLang || falsy reqd.difficulty) = true)
    (hma : reqa.method = "POST")
    (hfa : falsy reqa.text = true) :
    getFlashcardDeck wd reqd =
        ⟨.failure 400 "Missing required parameters.", emptyDeckTrace, wd.store⟩ ∧
      getSpeechAudio wa reqa =
        ⟨.failure 400 "Missing 'text' parameter.", emptyAudioTrace, wa.store⟩ := by
  constructor
  · simp [getFlashcardDeck, hmd, hfd]
  · simp [getSpeechAudio, hma, hfa]

/-- C8 witness: concrete 400 responses for a deck request without
`difficulty` and an audio request without `text`. -/
theorem validation_short_circuit_witness :
    getFlashcardDeck ⟨fun _ => none, false, false, .ok [], fun _ => .thrown, 0⟩
        ⟨"POST", some "English", some "French", none⟩ =
      ⟨.failure 400 "Missing required parameters.", emptyDeckTrace, fun _ => none⟩ ∧
      getSpeechAudio ⟨fun _ => none, false, false, .ok none, 0⟩ ⟨"POST", none⟩ =
        ⟨.failure 400 "Missing 'text' parameter.", emptyAudioTrace, fun _ => none⟩ :=
  validation_short_circuit _ _ _ _ rfl (by decide) rfl (by decide)

/-- C5: a cache-miss deck request whose text-generation call fails performs
no store write, leaves the store unchanged, and is answered 500. -/
theorem text_failure_no_write
    (w : DeckWorld) (req : DeckRequest)
    (hm : req.method = "POST")
    (hs : falsy req.sourceLang = false)
    (ht : falsy req.targetLang = false)
    (hd : falsy req.difficulty = false)
    (hr : w.readFails = false)
    (hmiss : w.store (deriveDeckKey (req.sourceLang.getD "") (req.targetLang.getD "")
      (req.difficulty.getD "")) = none)
    (hgen : w.textGen = .error ()) :
    (getFlashcardDeck w req).response =
        .failure 500 "Internal Server Error while generating flashcards." ∧
      (getFlashcardDeck w req).trace.storeWrites = [] ∧
      (getFlashcardDeck w req).store = w.store := by
  simp [getFlashcardDeck, hm, hs, ht, hd, hr, hmiss, hgen]

/-- C5 witness: concrete failing text generation on an empty store. -/
theorem text_failure_no_write_witness :
    (getFlashcardDeck ⟨fun _ => none, false, false, .error (), fun _ => .thrown, 0⟩
        ⟨"POST", some "English", some "French", some "Beginner"⟩).response =
        .failure 500 "Internal Server Error while generating flashcards." ∧
      (getFlashcardDeck ⟨fun _ => none, false, false, .error (), fun _ => .thrown, 0⟩
        ⟨"POST", some "English", some "French", some "Beginner"⟩).trace.storeWrites = [] ∧
      (getFlashcardDeck ⟨fun _ => none, false, false, .error (), fun _ => .thrown, 0⟩
        ⟨"POST", some "English", some "French", some "Beginner"⟩).store =
        (fun _ => none) :=
  text_failure_no_write _ _ rfl (by decide) (by decide) (by decide) rfl rfl rfl

/-- C10: for a POST deck request the 400 response occurs exactly when one of
`sourceLang`, `targetLang`, `difficulty` is absent or empty; the non-enum
difficulty `"beginner"` passes validation, is embedded in the derived cache
key — a key distinct from the `"Beginner"` one — and is forwarded verbatim
to the text-generation call. -/
theorem falsy_validation
    (w : DeckWorld) (req : DeckRequest) (hm : req.method = "POST") :
    ((getFlashcardDeck w req).response.statusOf = 400 ↔
      (falsy req.sourceLang = true ∨ falsy req.targetLang = true ∨
        falsy req.difficulty = true)) ∧
      (getFlashcardDeck ⟨fun _ => none, false, false, .ok [], fun _ => .thrown, 0⟩
          ⟨"POST", some "English", some "French", some "beginner"⟩).trace.textCalls =
        [("English", "French", "beginner")] ∧
      (getFlashcardDeck ⟨fun _ => none, false, false, .ok [], fun _ => .thrown, 0⟩
          ⟨"POST", some "English", some "French", some "beginner"⟩).trace.storeWrites =
        ["deck_English_French_beginner"] ∧
      deriveDeckKey "English" "French" "beginner" = "deck_English_French_beginner" ∧
      deriveDeckKey "English" "French" "beginner" ≠
        deriveDeckKey "English" "French" "Beginner" := by
  refine ⟨?_, rfl, rfl, rfl, by decide⟩
  have hfiff : (falsy req.sourceLang = true ∨ falsy req.targetLang = true ∨
      falsy req.difficulty = true) ↔
      (falsy req.sourceLang || falsy req.targetLang || falsy req.difficulty) = true := by
    simp [Bool.or_eq_true, or_assoc]
  rw [hfiff]
  by_cases hf : (falsy req.sourceLang || falsy req.targetLang || falsy req.difficulty) = true
  · simp [getFlashcardDeck, hm, hf, Response.statusOf]
  · have hf' : (falsy req.sourceLang || falsy req.targetLang || falsy req.difficulty) = false := by
      simpa using hf
    simp only [hf', Bool.false_eq_true, iff_false]
    unfold getFlashcardDeck
    repeat' split
    all_goals simp_all [Response.statusOf]
    all_goals
      cases hstore : w.store (deriveDeckKey (req.sourceLang.getD "") (req.targetLang.getD "")
          (req.difficulty.getD "")) <;>
        simp_all [Response.statusOf]

/-- C10 witness: a request with an empty `sourceLang` satisfies the iff on
its 400 side. -/
theorem falsy_validation_witness :
    ((getFlashcardDeck ⟨fun _ => none, false, false, .ok [], fun _ => .thrown, 0⟩
        ⟨"POST", some "", some "French", some "Beginner"⟩).response.statusOf = 400 ↔
      (falsy (some "") = true ∨ falsy (some "French") = true ∨
        falsy (some "Beginner") = true)) ∧
      (getFlashcardDeck ⟨fun _ => none, false, false, .ok [], fun _ => .thrown, 0⟩
          ⟨"POST", some "English", some "French", some "beginner"⟩).trace.textCalls =
        [("English", "French", "beginner")] ∧
      (getFlashcardDeck ⟨fun _ => none, false, false, .ok [], fun _ => .thrown, 0⟩
          ⟨"POST", some "English", some "French", some "beginner"⟩).trace.storeWrites =
        ["deck_English_French_beginner"] ∧
      deriveDeckKey "English" "French" "beginner" = "deck_English_French_beginner" ∧
      deriveDeckKey "English" "French" "beginner" ≠
        deriveDeckKey "English" "French" "Beginner" :=
  falsy_validation ⟨fun _ => none, false, false, .ok [], fun _ => .thrown, 0⟩
    ⟨"POST", some "", some "French", some "Beginner"⟩ rfl

/-- C1: cache-aside correctness. A valid POST deck request whose derived key
is missing from the store (read and write succeeding, text generation
yielding `cards`) makes exactly one text-generation call, one image call per
returned card, one store write under the derived key, and responds 200 with
the assembled cards; any subsequent POST request with the same three fields
against the resulting store is served from the store: same payload, no
provider call, no store write. -/
theorem cache_aside_correct
    (w : DeckWorld) (req : DeckRequest)
    (hm : req.method = "POST")
    (hs : falsy req.sourceLang = false)
    (ht : falsy req.targetLang = false)
    (hd : falsy req.difficulty = false)
    (hr : w.readFails = false)
    (hw : w.writeFails = false)
    (cards : List CardDesc)
    (hgen : w.textGen = .ok cards)
    (hmiss : w.store (deriveDeckKey (req.sourceLang.getD "") (req.targetLang.getD "")
      (req.difficulty.getD "")) = none) :
    (getFlashcardDeck w req).response = .success 200 (assembledDeck cards w.imageGen) ∧
      (getFlashcardDeck w req).trace.textCalls =
        [(req.sourceLang.getD "", req.targetLang.getD "", req.difficulty.getD "")] ∧
      (getFlashcardDeck w req).trace.imageCalls = cards.map (·.word) ∧
      (getFlashcardDeck w req).trace.storeWrites =
        [deriveDeckKey (req.sourceLang.getD "") (req.targetLang.getD "")
          (req.difficulty.getD "")] ∧
      (∀ (w₂ : DeckWorld) (req₂ : DeckRequest),
        req₂.method = "POST" → req₂.sourceLang = req.sourceLang →
        req₂.targetLang = req.targetLang → req₂.difficulty = req.difficulty →
        w₂.store = (getFlashcardDeck w req).store → w₂.readFails = false →
        (getFlashcardDeck w₂ req₂).response =
            .success 200 (assembledDeck cards w.imageGen) ∧
          (getFlashcardDeck w₂ req₂).trace.textCalls = [] ∧
          (getFlashcardDeck w₂ req₂).trace.imageCalls = [] ∧
          (getFlashcardDeck w₂ req₂).trace.storeWrites = [] ∧
          (getFlashcardDeck w₂ req₂).store = w₂.store) := by
  refine ⟨?_, ?_, ?_, ?_, ?_⟩
  · simp [getFlashcardDeck, hm, hs, ht, hd, hr, hw, hgen, hmiss]
  · simp [getFlashcardDeck, hm, hs, ht, hd, hr, hw, hgen, hmiss]
  · simp [getFlashcardDeck, hm, hs, ht, hd, hr, hw, hgen, hmiss]
  · simp [getFlashcardDeck, hm, hs, ht, hd, hr, hw, hgen, hmiss]
  · intro w₂ req₂ hm2 h1 h2 h3 hst hr2
    have hs2 : falsy req₂.sourceLang = false := by rw [h1]; exact hs
    have ht2 : falsy req₂.targetLang = false := by rw [h2]; exact ht
    have hd2 : falsy req₂.difficulty = false := by rw [h3]; exact hd
    have hstore2 : w₂.store (deriveDeckKey (req₂.sourceLang.getD "")
        (req₂.targetLang.getD "") (req₂.difficulty.getD "")) =
        some ⟨assembledDeck cards w.imageGen, w.now⟩ := by
      rw [h1, h2, h3, hst]
      simp [getFlashcardDeck, hm, hs, ht, hd, hr, hw, hgen, hmiss]
    simp [getFlashcardDeck, hm2, hs2, ht2, hd2, hr2, hstore2, emptyDeckTrace]

/-- C1 witness: first request on an empty store generates and persists one
card; a second request against the resulting store — with a provider that
would fail if consulted — returns the same payload with no provider call. -/
theorem cache_aside_correct_witness :
    (getFlashcardDeck
        ⟨fun _ => none, false, false, .ok [⟨"chat", "cat", "Noun", "Le chat"⟩],
          fun _ => .response [some "IMG"], 0⟩
        ⟨"POST", some "English", some "French", some "Beginner"⟩).response =
      .success 200 (assembledDeck [⟨"chat", "cat", "Noun", "Le chat"⟩]
        (fun _ => .response [some "IMG"])) ∧
      (getFlashcardDeck
          ⟨(getFlashcardDeck
              ⟨fun _ => none, false, false, .ok [⟨"chat", "cat", "Noun", "Le chat"⟩],
                fun _ => .response [some "IMG"], 0⟩
              ⟨"POST", some "English", some "French", some "Beginner"⟩).store,
            false, false, .error (), fun _ => .thrown, 5⟩
          ⟨"POST", some "English", some "French", some "Beginner"⟩).response =
        .success 200 (assembledDeck [⟨"chat", "cat", "Noun", "Le chat"⟩]
          (fun _ => .response [some "IMG"])) ∧
      (getFlashcardDeck
          ⟨(getFlashcardDeck
              ⟨fun _ => none, false, false, .ok [⟨"chat", "cat", "Noun", "Le chat"⟩],
                fun _ => .response [some "IMG"], 0⟩
              ⟨"POST", some "English", some "French", some "Beginner"⟩).store,
            false, false, .error (), fun _ => .thrown, 5⟩
          ⟨"POST", some "English", some "French", some "Beginner"⟩).trace.textCalls = [] := by
  have h := cache_aside_correct
    ⟨fun _ => none, false, false, .ok [⟨"chat", "cat", "Noun", "Le chat"⟩],
      fun _ => .response [some "IMG"], 0⟩
    ⟨"POST", some "English", some "French", some "Beginner"⟩
    rfl (by decide) (by decide) (by decide) rfl rfl
    [⟨"chat", "cat", "Noun", "Le chat"⟩] rfl rfl
  have h2 := h.2.2.2.2
    ⟨(getFlashcardDeck
        ⟨fun _ => none, false, false, .ok [⟨"chat", "cat", "Noun", "Le chat"⟩],
          fun _ => .response [some "IMG"], 0⟩
        ⟨"POST", some "English", some "French", some "Beginner"⟩).store,
      false, false, .error (), fun _ => .thrown, 5⟩
    ⟨"POST", some "English", some "French", some "Beginner"⟩
    rfl rfl rfl rfl rfl rfl
  exact ⟨h.1, h2.1, h2.2.1⟩

theorem getElemLtLen {α : Type} (l : List α) (i : Nat) (a : α) (h : l[i]? = some a) :
    i < l.length := by
  by_contra hc
  rw [List.getElem?_eq_none (Nat.le_of_not_lt hc)] at h
  exact Option.noConfusion h

theorem settleImagesGetD (cards : List CardDesc) (oracle : Nat → ProviderImageResult)
    (i : Nat) (hi : i < cards.length) :
    (settleImages cards oracle).getD i .rejected =
      settle (_generateImageFromAPI (oracle i)) := by
  unfold settleImages
  rw [List.getD_eq_getElem?_getD, List.getElem?_map]
  simp [List.getElem?_range, hi]

theorem assembledDeckGetElem (cards : List CardDesc) (oracle : Nat → ProviderImageResult)
    (i : Nat) (card : CardDesc) (h : cards[i]? = some card) :
    (assembledDeck cards oracle)[i]? =
      some (assembleCard card (settle (_generateImageFromAPI (oracle i)))) := by
  have hi : i < cards.length := getElemLtLen _ _ _ h
  unfold assembledDeck assembleDeck
  rw [List.getElem?_mapIdx, h, settleImagesGetD cards oracle i hi]
  rfl

/-- C2: fan-out resilience. For any ordered card descriptions and any
per-call image outcomes, deck assembly never aborts
(`_generateFlashcardsFromAPI` returns `ok`), the assembled deck has exactly
one record per card in the original positional order with all text fields
preserved (type lower-cased), a thrown image call puts `"no-image"` at its
position, and a call that yielded a payload puts that payload's data URL at
its position. -/
theorem fanout_resilience (cards : List CardDesc) (oracle : Nat → ProviderImageResult) :
    _generateFlashcardsFromAPI (.ok cards) oracle = .ok (assembledDeck cards oracle) ∧
      (assembledDeck cards oracle).length = cards.length ∧
      ∀ (i : Nat) (card : CardDesc), cards[i]? = some card →
        ((oracle i = .thrown →
          (assembledDeck cards oracle)[i]? =
            some ⟨card.word, card.translation, jsToLower card.type, card.sentence,
              "no-image"⟩) ∧
          (∀ p : String, imagePayload? (oracle i) = some p →
            (assembledDeck cards oracle)[i]? =
              some ⟨card.word, card.translation, jsToLower card.type, card.sentence,
                "data:image/png;base64," ++ p⟩)) := by
  refine ⟨rfl, ?_, ?_⟩
  · unfold assembledDeck assembleDeck
    rw [List.length_mapIdx]
  · intro i card h
    constructor
    · intro hthrown
      rw [assembledDeckGetElem cards oracle i card h, hthrown]
      rfl
    · intro p hp
      rw [assembledDeckGetElem cards oracle i card h]
      cases horacle : oracle i with
      | thrown =>
        rw [horacle] at hp
        exact Option.noConfusion hp
      | response parts =>
        rw [horacle] at hp
        simp only [imagePayload?] at hp
        simp [_generateImageFromAPI, settle, assembleCard, hp]

/-- C2 witness: two cards — the first image call throws, the second yields a
payload; positions, order and sentinels come out as stated. -/
theorem fanout_resilience_witness :
    (assembledDeck [⟨"gato", "cat", "Noun", "El gato"⟩, ⟨"ver", "to see", "Verb", "Puedo ver"⟩]
        (fun i => if i = 0 then .thrown else .response [some "P1"]))[0]? =
      some ⟨"gato", "cat", "noun", "El gato", "no-image"⟩ ∧
      (assembledDeck [⟨"gato", "cat", "Noun", "El gato"⟩, ⟨"ver", "to see", "Verb", "Puedo ver"⟩]
          (fun i => if i = 0 then .thrown else .response [some "P1"]))[1]? =
        some ⟨"ver", "to see", "verb", "Puedo ver", "data:image/png;base64,P1"⟩ := by
  have h := fanout_resilience
    [⟨"gato", "cat", "Noun", "El gato"⟩, ⟨"ver", "to see", "Verb", "Puedo ver"⟩]
    (fun i => if i = 0 then .thrown else .response [some "P1"])
  exact ⟨(h.2.2 0 ⟨"gato", "cat", "Noun", "El gato"⟩ rfl).1 rfl,
    (h.2.2 1 ⟨"ver", "to see", "Verb", "Puedo ver"⟩ rfl).2 "P1" rfl⟩

/-- C9: `_generateImageFromAPI` never rejects — it resolves for every
provider outcome, with the `"no-image"` sentinel on a thrown call; hence
every `Promise.allSettled` element is fulfilled, and the handler response
status is entirely independent of the image-call outcomes, so no individual
image failure can turn the deck response into an error. -/
theorem image_errors_absorbed :
    (∀ r : ProviderImageResult, ∃ v : String, _generateImageFromAPI r = .ok v) ∧
      (_generateImageFromAPI .thrown = .ok "no-image") ∧
      (∀ (cards : List CardDesc) (oracle : Nat → ProviderImageResult)
        (s : Settled String), s ∈ settleImages cards oracle →
          ∃ v : String, s = .fulfilled v) ∧
      (∀ (w : DeckWorld) (req : DeckRequest) (o₁ o₂ : Nat → ProviderImageResult),
        (getFlashcardDeck { w with imageGen := o₁ } req).response.statusOf =
          (getFlashcardDeck { w with imageGen := o₂ } req).response.statusOf) := by
  refine ⟨?_, rfl, ?_, ?_⟩
  · intro r
    cases r with
    | response parts =>
      cases hf : parts.findSome? id with
      | some data =>
        exact ⟨"data:image/png;base64," ++ data, by simp [_generateImageFromAPI, hf]⟩
      | none => exact ⟨"no-image", by simp [_generateImageFromAPI, hf]⟩
    | thrown => exact ⟨"no-image", rfl⟩
  · intro cards oracle s hs
    unfold settleImages at hs
    simp only [List.mem_map] at hs
    obtain ⟨i, _, rfl⟩ := hs
    cases horacle : oracle i with
    | response parts =>
      cases hf : parts.findSome? id with
      | some data =>
        exact ⟨"data:image/png;base64," ++ data,
          by simp [_generateImageFromAPI, settle, hf]⟩
      | none => exact ⟨"no-image", by simp [_generateImageFromAPI, settle, hf]⟩
    | thrown => exact ⟨"no-image", by simp [_generateImageFromAPI, settle]⟩
  · intro w req o₁ o₂
    unfold getFlashcardDeck
    repeat' split
    all_goals simp_all [Response.statusOf]
    all_goals
      cases hstore : w.store (deriveDeckKey (req.sourceLang.getD "") (req.targetLang.getD "")
          (req.difficulty.getD "")) <;>
        simp_all [Response.statusOf]

/-- C9 witness: the thrown image call resolves with the sentinel, and an
all-throwing image oracle yields the same response status as an
all-succeeding one on the same request. -/
theorem image_errors_absorbed_witness :
    _generateImageFromAPI .thrown = .ok "no-image" ∧
      (getFlashcardDeck
          ⟨fun _ => none, false, false, .ok [⟨"gato", "cat", "Noun", "El gato"⟩],
            fun _ => .thrown, 0⟩
          ⟨"POST", some "English", some "Spanish", some "Beginner"⟩).response.statusOf =
        (getFlashcardDeck
            ⟨fun _ => none, false, false, .ok [⟨"gato", "cat", "Noun", "El gato"⟩],
              fun _ => .response [some "X"], 0⟩
            ⟨"POST", some "English", some "Spanish", some "Beginner"⟩).response.statusOf :=
  ⟨image_errors_absorbed.2.1,
    image_errors_absorbed.2.2.2
      ⟨fun _ => none, false, false, .ok [⟨"gato", "cat", "Noun", "El gato"⟩],
        fun _ => .thrown, 0⟩
      ⟨"POST", some "English", some "Spanish", some "Beginner"⟩
      (fun _ => .thrown) (fun _ => .response [some "X"])⟩

/-- C3 (code-bug evidence): a cache-miss deck request whose generation
succeeds but whose store write throws is answered 500 — the
`await docRef.set(...)` rejection reaches the handler-wide catch
(index.ts 132-135), discarding the freshly generated payload instead of
serving it; the audio handler behaves the same (index.ts 185, 189-192). -/
theorem persistence_failure_discards :
    (getFlashcardDeck
        ⟨fun _ => none, false, true, .ok [⟨"gato", "cat", "Noun", "El gato"⟩],
          fun _ => .response [some "X"], 0⟩
        ⟨"POST", some "English", some "Spanish", some "Beginner"⟩).response =
      .failure 500 "Internal Server Error while generating flashcards." ∧
      (getSpeechAudio ⟨fun _ => none, false, true, .ok (some "AUDIO64"), 0⟩
          ⟨"POST", some "hola"⟩).response =
        .failure 500 "Internal Server Error while generating speech." :=
  ⟨rfl, rfl⟩

/-- C4 counterexample: on a valid POST deck request over a world whose store
read throws, the handler answers 500 having made no text-generation call and
no store write — it does not fall through to the generation path as the
claim states. -/
theorem store_read_failure_counterexample :
    (getFlashcardDeck
        ⟨fun _ => none, true, false, .ok [⟨"gato", "cat", "Noun", "El gato"⟩],
          fun _ => .response [some "X"], 0⟩
        ⟨"POST", some "English", some "Spanish", some "Beginner"⟩).response =
      .failure 500 "Internal Server Error while generating flashcards." ∧
      (getFlashcardDeck
          ⟨fun _ => none, true, false, .ok [⟨"gato", "cat", "Noun", "El gato"⟩],
            fun _ => .response [some "X"], 0⟩
          ⟨"POST", some "English", some "Spanish", some "Beginner"⟩).trace.textCalls = [] ∧
      (getFlashcardDeck
          ⟨fun _ => none, true, false, .ok [⟨"gato", "cat", "Noun", "El gato"⟩],
            fun _ => .response [some "X"], 0⟩
          ⟨"POST", some "English", some "Spanish", some "Beginner"⟩).trace.storeWrites =
        [] :=
  ⟨rfl, rfl, rfl⟩

/-- C4 (amended): a failing store read on a valid POST request makes either
handler respond 500 with no provider call, no store write and an unchanged
store — the `docRef.get()` rejection propagates to the handler-wide catch
rather than being degraded to a cache miss. -/
theorem store_read_failure_aborts
    (wd : DeckWorld) (reqd : DeckRequest)
    (hmd : reqd.method = "POST")
    (hs : falsy reqd.sourceLang = false)
    (ht : falsy reqd.targetLang = false)
    (hd : falsy reqd.difficulty = false)
    (hrd : wd.readFails = true)
    (wa : AudioWorld) (reqa : AudioRequest)
    (hma : reqa.method = "POST")
    (hta : falsy reqa.text = false)
    (hra : wa.readFails = true) :
    (getFlashcardDeck wd reqd).response =
        .failure 500 "Internal Server Error while generating flashcards." ∧
      (getFlashcardDeck wd reqd).trace.textCalls = [] ∧
      (getFlashcardDeck wd reqd).trace.imageCalls = [] ∧
      (getFlashcardDeck wd reqd).trace.storeWrites = [] ∧
      (getFlashcardDeck wd reqd).store = wd.store ∧
      (getSpeechAudio wa reqa).response =
        .failure 500 "Internal Server Error while generating speech." ∧
      (getSpeechAudio wa reqa).trace.ttsCalls = [] ∧
      (getSpeechAudio wa reqa).trace.storeWrites = [] ∧
      (getSpeechAudio wa reqa).store = wa.store := by
  constructor
  · simp [getFlashcardDeck, hmd, hs, ht, hd, hrd]
  refine ⟨?_, ?_, ?_, ?_, ?_, ?_, ?_, ?_⟩ <;>
    simp [getFlashcardDeck, getSpeechAudio, hmd, hs, ht, hd, hrd, hma, hta, hra,
      emptyDeckTrace, emptyAudioTrace]

/-- C4 witness: the amended behavior at concrete worlds with failing store
reads. -/
theorem store_read_failure_aborts_witness :
    (getFlashcardDeck
        ⟨fun _ => none, true, false, .ok [], fun _ => .thrown, 0⟩
        ⟨"POST", some "English", some "French", some "Expert"⟩).response =
        .failure 500 "Internal Server Error while generating flashcards." ∧
      (getFlashcardDeck
          ⟨fun _ => none, true, false, .ok [], fun _ => .thrown, 0⟩
          ⟨"POST", some "English", some "French", some "Expert"⟩).trace.textCalls = [] ∧
      (getFlashcardDeck
          ⟨fun _ => none, true, false, .ok [], fun _ => .thrown, 0⟩
          ⟨"POST", some "English", some "French", some "Expert"⟩).trace.imageCalls = [] ∧
      (getFlashcardDeck
          ⟨fun _ => none, true, false, .ok [], fun _ => .thrown, 0⟩
          ⟨"POST", some "English", some "French", some "Expert"⟩).trace.storeWrites = [] ∧
      (getFlashcardDeck
          ⟨fun _ => none, true, false, .ok [], fun _ => .thrown, 0⟩
          ⟨"POST", some "English", some "French", some "Expert"⟩).store =
        (fun _ => none) ∧
      (getSpeechAudio ⟨fun _ => none, true, false, .ok (some "A"), 0⟩
          ⟨"POST", some "bonjour"⟩).response =
        .failure 500 "Internal Server Error while generating speech." ∧
      (getSpeechAudio ⟨fun _ => none, true, false, .ok (some "A"), 0⟩
          ⟨"POST", some "bonjour"⟩).trace.ttsCalls = [] ∧
      (getSpeechAudio ⟨fun _ => none, true, false, .ok (some "A"), 0⟩
          ⟨"POST", some "bonjour"⟩).trace.storeWrites = [] ∧
      (getSpeechAudio ⟨fun _ => none, true, false, .ok (some "A"), 0⟩
          ⟨"POST", some "bonjour"⟩).store = (fun _ => none) :=
  store_read_failure_aborts
    ⟨fun _ => none, true, false, .ok [], fun _ => .thrown, 0⟩
    ⟨"POST", some "English", some "French", some "Expert"⟩
    rfl (by decide) (by decide) (by decide) rfl
    ⟨fun _ => none, true, false, .ok (some "A"), 0⟩
    ⟨"POST", some "bonjour"⟩
    rfl (by decide) rfl

end FlashCard
